import Mathlib

/-!
Shallow embedding of the host-side runtime of `luisa-compute-rs`
(`src/luisa_compute/src/runtime.rs`): resource handles, the argument
encoder, streams / command buffers / sync handles, and the shader
compilation pipeline.  Machine integers (`usize`, `u32`, `u64` handles)
are modelled as `Nat`: all quantities involved are sizes, counts and
opaque ids on which the code performs no overflowing arithmetic.
Rust generics over an element type `T` are modelled by carrying
`size_of::<T>()` explicitly as a `Nat` field/parameter, since the encoder
and factories only ever use `std::mem::size_of::<T>()` of the type.
-/

namespace LuisaRuntime

/-- Opaque backend error (`crate::backend::BackendError`); its payload is
never inspected by the runtime, a `String` message stands for it. -/
structure BackendError where
  msg : String
deriving DecidableEq, Repr

/-- `api::BufferArgument { buffer, offset, size }`: backend id, offset, size. -/
structure BufferArgument where
  buffer : Nat
  offset : Nat
  size : Nat
deriving DecidableEq, Repr

/-- `api::TextureArgument { texture, level }`: backend id and mip level. -/
structure TextureArgument where
  texture : Nat
  level : Nat
deriving DecidableEq, Repr

/-- `api::Argument`: one backend argument record. -/
inductive Argument where
  | buffer (a : BufferArgument)
  | texture (a : TextureArgument)
  | bindlessArray (id : Nat)
  | accel (id : Nat)
deriving DecidableEq, Repr

/-- The backend resource id an argument record refers to. -/
def Argument.resourceId : Argument → Nat
  | .buffer a => a.buffer
  | .texture a => a.texture
  | .bindlessArray id => id
  | .accel id => id

/-- `Buffer<T>`: typed buffer handle.  Source fields: `device`,
`handle: Arc<BufferHandle>` (backend id + native pointer), `len`,
`_marker: PhantomData<T>`.  The device/native-pointer ownership plumbing
does not enter any encoded record; the backend id, the element count and
`size_of::<T>()` (`elemSize`) do. -/
structure Buffer where
  handle : Nat
  len : Nat
  elemSize : Nat
deriving DecidableEq, Repr

/-- `BufferView<'a, T>`: non-owning (element offset, element length) slice
of a buffer; `handle()` returns the underlying backend id. -/
structure BufferView where
  handle : Nat
  offset : Nat
  len : Nat
  elemSize : Nat
deriving DecidableEq, Repr

/-- `Tex2d<T>` / `Tex3d<T>` handle data relevant to encoding: the backend
id and the mip level count (shape metadata `width/height/depth/format`
never enters an argument record). -/
structure Tex2d where
  handle : Nat
  levels : Nat
deriving DecidableEq, Repr

structure Tex3d where
  handle : Nat
  levels : Nat
deriving DecidableEq, Repr

/-- `Tex2dView<'a, T>` / `Tex3dView<'a, T>`: a (mip level) view;
`handle()` returns the underlying texture's backend id. -/
structure Tex2dView where
  handle : Nat
  level : Nat
deriving DecidableEq, Repr

structure Tex3dView where
  handle : Nat
  level : Nat
deriving DecidableEq, Repr

/-- Modelled from the spec: `Tex2d::view(level)` lives in `resource.rs`,
which is not among the shown sources; the spec defines a view as a
non-owning "(mip level)" slice into a handle, so `view(level)` is the
view of this texture at that mip level. -/
def Tex2d.view (t : Tex2d) (level : Nat) : Tex2dView :=
  ⟨t.handle, level⟩

/-- Modelled from the spec: `Tex3d::view(level)`, as for `Tex2d.view`. -/
def Tex3d.view (t : Tex3d) (level : Nat) : Tex3dView :=
  ⟨t.handle, level⟩

/-- `BindlessArray` handle data relevant to encoding (the modification
list and its resource tracker never enter an argument record). -/
structure BindlessArray where
  handle : Nat
deriving DecidableEq, Repr

/-- `rtx::Accel` handle data relevant to encoding. -/
structure Accel where
  handle : Nat
deriving DecidableEq, Repr

/-- `ArgEncoder { args: Vec<api::Argument> }`. -/
structure ArgEncoder where
  args : List Argument
deriving DecidableEq, Repr

/-- `ArgEncoder::new()`. -/
def ArgEncoder.new : ArgEncoder := ⟨[]⟩

/-- `ArgEncoder::buffer`: pushes a buffer record with offset `0` and size
`buffer.len * size_of::<T>()`. -/
def ArgEncoder.buffer (e : ArgEncoder) (b : Buffer) : ArgEncoder :=
  ⟨e.args ++ [.buffer ⟨b.handle, 0, b.len * b.elemSize⟩]⟩

/-- `ArgEncoder::buffer_view`: pushes a buffer record with offset
`buffer.offset` (the element offset, NOT scaled by `size_of::<T>()`) and
size `buffer.len * size_of::<T>()` — transcribed exactly as the source
writes it. -/
def ArgEncoder.buffer_view (e : ArgEncoder) (b : BufferView) : ArgEncoder :=
  ⟨e.args ++ [.buffer ⟨b.handle, b.offset, b.len * b.elemSize⟩]⟩

/-- `ArgEncoder::tex2d`: pushes a texture record (backend id, mip level). -/
def ArgEncoder.tex2d (e : ArgEncoder) (t : Tex2dView) : ArgEncoder :=
  ⟨e.args ++ [.texture ⟨t.handle, t.level⟩]⟩

/-- `ArgEncoder::tex3d`: pushes a texture record (backend id, mip level). -/
def ArgEncoder.tex3d (e : ArgEncoder) (t : Tex3dView) : ArgEncoder :=
  ⟨e.args ++ [.texture ⟨t.handle, t.level⟩]⟩

/-- `ArgEncoder::bindless_array`: pushes the backend id only. -/
def ArgEncoder.bindless_array (e : ArgEncoder) (a : BindlessArray) : ArgEncoder :=
  ⟨e.args ++ [.bindlessArray a.handle]⟩

/-- `ArgEncoder::accel`: pushes the backend id only. -/
def ArgEncoder.accel (e : ArgEncoder) (a : Accel) : ArgEncoder :=
  ⟨e.args ++ [.accel a.handle]⟩

/-- The closed set of resource values that implement `KernelArg` in
`runtime.rs` (one constructor per `impl KernelArg for …`). -/
inductive ArgValue where
  | buffer (b : Buffer)
  | bufferView (v : BufferView)
  | tex2d (t : Tex2d)
  | tex3d (t : Tex3d)
  | tex2dView (v : Tex2dView)
  | tex3dView (v : Tex3dView)
  | bindlessArray (a : BindlessArray)
  | accel (a : Accel)
deriving DecidableEq, Repr

/-- `KernelArg::encode` for each resource impl in `runtime.rs`:
buffers/views call the matching encoder method; a whole `Tex2d`/`Tex3d`
encodes `self.view(0)`. -/
def ArgValue.encode : ArgValue → ArgEncoder → ArgEncoder
  | .buffer b, e => e.buffer b
  | .bufferView v, e => e.buffer_view v
  | .tex2d t, e => e.tex2d (t.view 0)
  | .tex3d t, e => e.tex3d (t.view 0)
  | .tex2dView v, e => e.tex2d v
  | .tex3dView v, e => e.tex3d v
  | .bindlessArray a, e => e.bindless_array a
  | .accel a, e => e.accel a

/-- The record(s) a single argument contributes, i.e. what its `encode`
appends to an empty encoder. -/
def ArgValue.records (a : ArgValue) : List Argument :=
  (a.encode ArgEncoder.new).args

/-- `impl_kernel_arg_for_tuple!`: a tuple encodes element-by-element,
first component first (`$first.encode(encoder); $($rest.encode(encoder);)*`),
the empty tuple encodes nothing.  Tuples are modelled as lists of
`ArgValue`; the macro instantiates arities 0 through 16. -/
def encodeTuple (argTuple : List ArgValue) (e : ArgEncoder) : ArgEncoder :=
  argTuple.foldl (fun enc a => a.encode enc) e

/-- Dispatch grid size, `[u32; 3]`. -/
structure DispatchSize where
  x : Nat
  y : Nat
  z : Nat
deriving DecidableEq, Repr

/-- `api::Command`: the backend-native command record.  The source stores
the argument array by raw pointer + count into the encoder's `Vec`; the
record denotes exactly that argument list. -/
inductive ApiCommand where
  | shaderDispatch (shader : Nat) (args : List Argument) (dispatch_size : DispatchSize)
deriving DecidableEq, Repr

/-- The backend resource ids a backend-native command references. -/
def ApiCommand.referencedResources : ApiCommand → List Nat
  | .shaderDispatch _ args _ => args.map Argument.resourceId

/-- Modelled from the spec: `ResourceTracker` lives in `resource.rs`,
which is not among the shown sources; the spec's glossary defines it as
"a list of ownership references kept alive for the duration of an
in-flight command".  References are identified by the backend resource id
they keep alive. -/
structure ResourceTracker where
  refs : List Nat
deriving DecidableEq, Repr

/-- Modelled from the spec: `ResourceTracker::new()` (in `resource.rs`,
not shown) constructs the tracker holding no ownership references, as a
Rust `new()` on a list-of-references type does. -/
def ResourceTracker.new : ResourceTracker := ⟨[]⟩

/-- `Command<'a> { inner, marker, resource_tracker }`. -/
structure Command where
  inner : ApiCommand
  resource_tracker : ResourceTracker
deriving DecidableEq, Repr

/-- `api::CreatedShaderInfo` as used by `runtime.rs`: only
`resource.handle` is ever read. -/
structure CreatedShaderInfo where
  handle : Nat
deriving DecidableEq, Repr

/-- `backend::Result<api::CreatedShaderInfo>`, the content the background
compile task stores in the async artifact slot. -/
abbrev ShaderResult := Except BackendError CreatedShaderInfo

/-- Observable calls made on the backend capability interface, used to
state "the backend was (not) called" claims. -/
inductive BackendCall where
  | createBuffer (elemSize : Nat) (count : Nat)
  | dispatch (stream : Nat) (commands : List ApiCommand)
  | synchronizeStream (stream : Nat)
deriving DecidableEq, Repr

/-- The backend capability interface (`dyn Backend`) as a black-box
oracle: each entry point is a function from its request to the result the
backend would return.  `shader_cache_dir` returns an opaque path. -/
structure Backend where
  create_buffer : Nat → Nat → Except BackendError Nat
  dispatch : Nat → List ApiCommand → Except BackendError Unit
  synchronize_stream : Nat → Except BackendError Unit
  create_shader : Nat → ShaderResult
  shader_cache_dir : Nat → Option String

/-- `DeviceHandle { backend, default_stream }`. -/
structure DeviceHandle where
  backend : Backend
  default_stream : Nat

/-- `Device { inner: Arc<DeviceHandle> }`. -/
structure Device where
  inner : DeviceHandle

/-- Outcome of running a piece of Rust code that may panic (an `assert!`
failure or an `unwrap()` on `None`/`Err`): either it returns a value or
the thread panics and no value is ever returned to the caller. -/
inductive Outcome (α : Type) where
  | ok (a : α)
  | panicked
deriving DecidableEq, Repr

/-- Whether a `create_buffer` outcome is a returned error result (an
`Ok`-returned `Err` value the caller can handle, as opposed to a panic or
a success). -/
def Outcome.isErrResult : Outcome (Except BackendError Buffer) → Bool
  | .ok (.error _) => true
  | _ => false

/-- `Device::create_buffer::<T>(count)`, with `size_of::<T>()` passed
explicitly as `elemSize`.  The source first runs
`assert!(size_of::<T>() > 0)` — a panic when it fails, issued before any
backend call — then calls the backend and wraps the returned id.
Returns the outcome paired with the trace of backend calls made. -/
def Device.create_buffer (d : Device) (elemSize : Nat) (count : Nat) :
    Outcome (Except BackendError Buffer) × List BackendCall :=
  if elemSize > 0 then
    match d.inner.backend.create_buffer elemSize count with
    | .ok id => (.ok (.ok ⟨id, count, elemSize⟩), [.createBuffer elemSize count])
    | .error e => (.ok (.error e), [.createBuffer elemSize count])
  else
    (.panicked, [])

/-- `StreamHandle`: `Default(Arc<DeviceHandle>, api::Stream)` or
`NonDefault { device, handle, native_handle }` (the native pointer is
opaque and unused by every claim). -/
inductive StreamHandle where
  | Default (device : DeviceHandle) (stream : Nat)
  | NonDefault (device : DeviceHandle) (handle : Nat)

/-- `StreamHandle::device()`. -/
def StreamHandle.device : StreamHandle → DeviceHandle
  | .Default device _ => device
  | .NonDefault device _ => device

/-- `StreamHandle::handle()`. -/
def StreamHandle.handle : StreamHandle → Nat
  | .Default _ stream => stream
  | .NonDefault _ handle => handle

/-- `Stream { device, handle: Arc<StreamHandle> }`. -/
structure Stream where
  device : Device
  handle : StreamHandle

/-- `Device::default_stream()`. -/
def Device.default_stream (d : Device) : Stream :=
  { device := d, handle := .Default d.inner d.inner.default_stream }

/-- `SyncHandle<'a> { stream: Cell<Option<Arc<StreamHandle>>> }`. -/
structure SyncHandle where
  stream : Option StreamHandle

/-- `SyncHandle::synchronize`: `self.stream.take().map(|s| …synchronize_stream…).unwrap()`.
The `take` empties the cell; when the cell was already empty the `unwrap`
panics with no backend call.  Returns the handle's new state, the backend
calls issued, and the outcome (`backend::Result<()>` or a panic). -/
def SyncHandle.synchronize (h : SyncHandle) :
    SyncHandle × List BackendCall × Outcome (Except BackendError Unit) :=
  match h.stream with
  | some sh =>
    (⟨none⟩, [.synchronizeStream sh.handle],
      .ok (sh.device.backend.synchronize_stream sh.handle))
  | none => (⟨none⟩, [], .panicked)

/-- `impl Drop for SyncHandle`: `self.stream.take().map(|s| …synchronize_stream…)`
— the wait is issued only when the cell still holds the stream.  Returns
the backend calls the destructor issues. -/
def SyncHandle.dropCalls (h : SyncHandle) : List BackendCall :=
  match h.stream with
  | some sh => [.synchronizeStream sh.handle]
  | none => []

/-- `CommandBuffer<'a> { stream, marker, commands }`. -/
structure CommandBuffer where
  stream : StreamHandle
  commands : List Command

/-- `Stream::command_buffer()`: an empty command list bound to the stream. -/
def Stream.command_buffer (s : Stream) : CommandBuffer :=
  { stream := s.handle, commands := [] }

/-- `CommandBuffer::extend`. -/
def CommandBuffer.extend (cb : CommandBuffer) (commands : List Command) : CommandBuffer :=
  { cb with commands := cb.commands ++ commands }

/-- `CommandBuffer::push`. -/
def CommandBuffer.push (cb : CommandBuffer) (command : Command) : CommandBuffer :=
  { cb with commands := cb.commands ++ [command] }

/-- `CommandBuffer::commit` (= `commit_with_callback` with an empty
callback; the completion callback is forwarded to the backend opaquely
and observed by no claim): flattens `commands` to the backend-native
records (`self.commands.iter().map(|c| c.inner)`), issues exactly one
backend `dispatch` call, and on success returns a `SyncHandle` holding
the stream.  Returns the backend calls issued and the result. -/
def CommandBuffer.commit (cb : CommandBuffer) :
    List BackendCall × Except BackendError SyncHandle :=
  let commands := cb.commands.map (·.inner)
  match cb.stream.device.backend.dispatch cb.stream.handle commands with
  | .ok _ => ([.dispatch cb.stream.handle commands], .ok ⟨some cb.stream⟩)
  | .error e => ([.dispatch cb.stream.handle commands], .error e)

/-- `Stream::submit`: `command_buffer` + `extend` + `commit`. -/
def Stream.submit (s : Stream) (commands : List Command) :
    List BackendCall × Except BackendError SyncHandle :=
  ((s.command_buffer).extend commands).commit

/-- `Stream::synchronize()`. -/
def Stream.synchronize (s : Stream) : List BackendCall × Except BackendError Unit :=
  ([.synchronizeStream s.handle.handle],
    s.handle.device.backend.synchronize_stream s.handle.handle)

/-- `Stream::submit_and_sync`: `self.submit(commands)?.synchronize()`.
An `Err` from `submit` is returned via `?`; otherwise the sync handle is
synchronized immediately (it then holds `None` and its drop is silent). -/
def Stream.submit_and_sync (s : Stream) (commands : List Command) :
    List BackendCall × Outcome (Except BackendError Unit) :=
  match s.submit commands with
  | (calls, .error e) => (calls, .ok (.error e))
  | (calls, .ok h) =>
    match h.synchronize with
    | (_, calls2, out) => (calls ++ calls2, out)

/-- `submit_default_stream_and_sync`. -/
def submit_default_stream_and_sync (device : Device) (commands : List Command) :
    List BackendCall × Outcome (Except BackendError Unit) :=
  (device.default_stream).submit_and_sync commands

/-! ### Shader compilation pipeline -/

/-- `ShaderArtifact`: `Sync(api::CreatedShaderInfo)` or
`Async(Arc<(Mutex<AsyncShaderArtifact>, Condvar)>)`.  In the async case
the value carried here is the result the background task stores in the
mutex-guarded slot: `AsyncShaderArtifact::new` spawns exactly one task,
that task is the slot's only writer, and every read of the slot either
finds the stored result or blocks on the condition variable until the
task stores it — so a completed read is a function of that one result. -/
inductive ShaderArtifact where
  | Async (stored : ShaderResult)
  | Sync (info : CreatedShaderInfo)

/-- `RawShader { device, artifact, resource_tracker }`. -/
structure RawShader where
  device : Device
  artifact : ShaderArtifact
  resource_tracker : ResourceTracker

/-- `RawShader::unwrap`: `Sync` yields the shader id directly; `Async`
locks the slot (blocking on the condvar when still empty) and then runs
`.as_ref().unwrap()` on the stored `backend::Result` — a panic when the
background compile stored a failure, in both the already-stored and the
waited-for branch. -/
def RawShader.unwrap (s : RawShader) : Outcome Nat :=
  match s.artifact with
  | .Sync shader => .ok shader.handle
  | .Async (.ok shader) => .ok shader.handle
  | .Async (.error _) => .panicked

/-- `RawShader::dispatch_async`: builds the backend-native
`ShaderDispatchCommand` from `self.unwrap()`, the encoder's argument list
and the grid size, and attaches `ResourceTracker::new()` as the command's
resource tracker.  A panic in `unwrap` propagates. -/
def RawShader.dispatch_async (s : RawShader) (args : ArgEncoder)
    (dispatch_size : DispatchSize) : Outcome Command :=
  match s.unwrap with
  | .ok shader =>
    .ok { inner := .shaderDispatch shader args.args dispatch_size,
          resource_tracker := ResourceTracker.new }
  | .panicked => .panicked

/-- `RawShader::dispatch`:
`submit_default_stream_and_sync(&self.device, vec![self.dispatch_async(args, dispatch_size)])`. -/
def RawShader.dispatch (s : RawShader) (args : ArgEncoder)
    (dispatch_size : DispatchSize) : Outcome (Except BackendError Unit) :=
  match s.dispatch_async args dispatch_size with
  | .ok c => (submit_default_stream_and_sync s.device [c]).2
  | .panicked => .panicked

/-- `Kernel<T> { inner: RawShader, _marker }`. -/
structure Kernel where
  inner : RawShader

/-- `Kernel::cache_dir`: `self.inner.unwrap()` then
`device.inner.shader_cache_dir(handle)`. -/
def Kernel.cache_dir (k : Kernel) : Outcome (Option String) :=
  match k.inner.unwrap with
  | .ok handle => .ok (k.inner.device.inner.backend.shader_cache_dir handle)
  | .panicked => .panicked

/-- Modelled from the spec: the kernel-module producer interface
(`KernelBuilder` / `KernelBuildFn::build` / `S::wrap_raw_shader`, in the
excluded `lang` layer) is "an opaque compiled-kernel-module value …
accepted verbatim by the compile pipeline".  A kernel definition is
opaque; `build f opts d` stands for
`S::wrap_raw_shader(KernelBuildFn::build(&f, &mut KernelBuilder::new(d), opts))`
for an arbitrary builder. -/
structure KernelDef where
  id : Nat

/-- `ShaderBuildOptions` (from `lang`): only `default()` is ever passed
by `runtime.rs`; modelled opaquely. -/
structure ShaderBuildOptions where
  async_compile : Bool

/-- `ShaderBuildOptions::default()`. -/
def ShaderBuildOptions.default : ShaderBuildOptions := ⟨false⟩

/-- `Device::create_kernel`: `KernelBuilder::new(self.clone())`, then
`KernelBuildFn::build(&f, &mut builder, ShaderBuildOptions::default())`,
then `S::wrap_raw_shader(raw_kernel)` — with the `lang`-layer build
pipeline abstracted as the function `build`. -/
def Device.create_kernel
    (build : Device → KernelDef → ShaderBuildOptions → Except BackendError Kernel)
    (d : Device) (f : KernelDef) : Except BackendError Kernel :=
  build d f ShaderBuildOptions.default

/-- `Device::create_kernel_async`: its body in `runtime.rs` is token-for-
token the body of `create_kernel` — same builder, same
`ShaderBuildOptions::default()`, same wrap. -/
def Device.create_kernel_async
    (build : Device → KernelDef → ShaderBuildOptions → Except BackendError Kernel)
    (d : Device) (f : KernelDef) : Except BackendError Kernel :=
  build d f ShaderBuildOptions.default

/-! ### Async artifact state machine (for the Pending→Ready claim)

`AsyncShaderArtifact::new` creates the slot holding `None`, spawns one
background task, and that task — the slot's only writer — stores
`Some(create_shader(kernel))` under the mutex and notifies.  The
interleaved executions of this code are the traces of the following step
relation: the one atomic transition is the task's store (slot
`None`→`Some r`, task finished); everything else a thread does leaves the
slot untouched (readers under the mutex do not write). -/

instance : DecidableEq ShaderResult := fun a b =>
  match a, b with
  | .ok x, .ok y =>
    if h : x = y then .isTrue (by rw [h]) else .isFalse (by simp [h])
  | .error x, .error y =>
    if h : x = y then .isTrue (by rw [h]) else .isFalse (by simp [h])
  | .ok _, .error _ => .isFalse (by simp)
  | .error _, .ok _ => .isFalse (by simp)

/-- State of one async artifact: the mutex-guarded slot and whether the
spawned task has run. -/
structure ArtifactState where
  slot : Option ShaderResult
  taskDone : Bool
deriving DecidableEq

/-- `AsyncShaderArtifact { shader: None }` with the task not yet run. -/
def ArtifactState.init : ArtifactState := ⟨none, false⟩

/-- The one non-stuttering transition: the background task stores the
compile result `r` and finishes. -/
inductive ArtifactStep (r : ShaderResult) : ArtifactState → ArtifactState → Prop
  | store : ArtifactStep r ⟨none, false⟩ ⟨some r, true⟩

/-- A trace of the artifact's life: starts at `init`; each instant either
stutters (no thread touches the slot) or performs the task's store. -/
def IsArtifactTrace (r : ShaderResult) (t : Nat → ArtifactState) : Prop :=
  t 0 = ArtifactState.init ∧ ∀ i, t (i + 1) = t i ∨ ArtifactStep r (t i) (t (i + 1))

/-! ### SyncHandle lifetime model (for the exactly-one-wait claim)

A handle's observable lifetime is some number of explicit `synchronize`
calls followed by its drop.  A `synchronize` that panics (the cell
already empty) ends the explicit calls; Rust then drops the handle during
unwinding, and the destructor issues a wait only when the cell still
holds the stream. -/

/-- Run `n` explicit `synchronize` calls on a handle, stopping early on a
panic; returns the final handle state and all backend calls issued. -/
def runSyncCalls : Nat → SyncHandle → SyncHandle × List BackendCall
  | 0, h => (h, [])
  | n + 1, h =>
    match h.synchronize with
    | (h', calls, .ok _) =>
      let (h'', rest) := runSyncCalls n h'
      (h'', calls ++ rest)
    | (h', calls, .panicked) => (h', calls)

/-- All backend waits issued over a handle's lifetime: `n` explicit
`synchronize` calls, then the destructor. -/
def lifetimeWaits (n : Nat) (h : SyncHandle) : Nat :=
  let (h', calls) := runSyncCalls n h
  (calls ++ h'.dropCalls).length

/-! ### Concrete fixtures for witnesses and counterexamples -/

/-- A concrete, everywhere-succeeding backend for evaluating the
embedding at concrete inputs. -/
def okBackend : Backend where
  create_buffer := fun _ count => .ok (100 + count)
  dispatch := fun _ _ => .ok ()
  synchronize_stream := fun _ => .ok ()
  create_shader := fun k => .ok ⟨200 + k⟩
  shader_cache_dir := fun _ => none

/-- A concrete device over `okBackend` whose default stream has id 0. -/
def testDevice : Device := ⟨⟨okBackend, 0⟩⟩

/-! ### Theorems -/

/-- Each `KernelArg::encode` impl appends its own record(s) to whatever
the encoder already holds, touching nothing before. -/
theorem ArgValue.encode_args (a : ArgValue) (e : ArgEncoder) :
    (a.encode e).args = e.args ++ a.records := by
  cases a <;>
    simp [ArgValue.encode, ArgValue.records, ArgEncoder.new, ArgEncoder.buffer,
      ArgEncoder.buffer_view, ArgEncoder.tex2d, ArgEncoder.tex3d,
      ArgEncoder.bindless_array, ArgEncoder.accel]

/-- C2: the claim says `ArgEncoder::buffer_view` records the byte offset
`o * size_of::<T>()`; the code pushes the raw element offset `o`.  At a
view with element offset 2, element length 3 and element size 4, the
emitted record carries offset 2, not the byte offset 8 (while the size
field is the byte size 12). -/
theorem c2_counterexample_buffer_view_offset_unscaled :
    (ArgEncoder.new.buffer_view ⟨7, 2, 3, 4⟩).args
        = [Argument.buffer ⟨7, 2, 12⟩]
      ∧ (2 : Nat) ≠ 2 * 4 := by
  constructor
  · rfl
  · decide

/-- C6: encoding an argument tuple of any supported arity (0 through 16)
appends exactly the concatenation of each element's records in
left-to-right tuple order: tuple encoding is a homomorphism from tuples
to record sequences, so the final record order matches parameter
declaration order. -/
theorem c6_tuple_encode_is_concat_in_order
    (argTuple : List ArgValue) (e : ArgEncoder)
    (_h : argTuple.length ≤ 16) :
    (encodeTuple argTuple e).args
      = e.args ++ (argTuple.map ArgValue.records).flatten := by
  clear _h
  induction argTuple generalizing e with
  | nil => simp [encodeTuple]
  | cons a rest ih =>
    show (encodeTuple rest (a.encode e)).args = _
    rw [ih (a.encode e), ArgValue.encode_args]
    simp

/-- C6 witness: a concrete 3-argument tuple (buffer, texture view,
acceleration structure) encodes to the three records in order. -/
theorem c6_tuple_encode_witness :
    ([ArgValue.buffer ⟨1, 2, 4⟩, ArgValue.tex2dView ⟨3, 1⟩,
        ArgValue.accel ⟨5⟩] : List ArgValue).length ≤ 16
      ∧ (encodeTuple
            [ArgValue.buffer ⟨1, 2, 4⟩, ArgValue.tex2dView ⟨3, 1⟩,
              ArgValue.accel ⟨5⟩] ArgEncoder.new).args
          = ArgEncoder.new.args
            ++ (([ArgValue.buffer ⟨1, 2, 4⟩, ArgValue.tex2dView ⟨3, 1⟩,
                  ArgValue.accel ⟨5⟩] : List ArgValue).map ArgValue.records).flatten :=
  ⟨by decide,
    c6_tuple_encode_is_concat_in_order
      [ArgValue.buffer ⟨1, 2, 4⟩, ArgValue.tex2dView ⟨3, 1⟩, ArgValue.accel ⟨5⟩]
      ArgEncoder.new (by decide)⟩

/-- C10: a whole resource encodes as its canonical full projection: a
whole `Buffer<T>` yields a record with byte offset 0 and byte size
`len * size_of::<T>()`, and a whole `Tex2d<T>` / `Tex3d<T>` yields the
record of its mip level 0 view. -/
theorem c10_whole_resource_canonical_projection
    (e : ArgEncoder) (b : Buffer) (t2 : Tex2d) (t3 : Tex3d) :
    (ArgValue.encode (.buffer b) e).args
        = e.args ++ [Argument.buffer ⟨b.handle, 0, b.len * b.elemSize⟩]
      ∧ (ArgValue.encode (.tex2d t2) e).args
        = e.args ++ [Argument.texture ⟨t2.handle, 0⟩]
      ∧ (ArgValue.encode (.tex3d t3) e).args
        = e.args ++ [Argument.texture ⟨t3.handle, 0⟩] := by
  refine ⟨?_, ?_, ?_⟩ <;>
    simp [ArgValue.encode, ArgEncoder.buffer, ArgEncoder.tex2d, ArgEncoder.tex3d,
      Tex2d.view, Tex3d.view]

/-- Concrete shader fixture: synchronously compiled artifact with backend
shader id 9, over `testDevice`. -/
def c1Shader : RawShader :=
  { device := testDevice, artifact := .Sync ⟨9⟩,
    resource_tracker := ResourceTracker.new }

/-- C1: the claim says the `Command` built by `dispatch_async` carries a
resource tracker containing every resource its arguments reference.  The
code attaches `ResourceTracker::new()`: dispatching with an encoder
holding one buffer argument (backend id 42) yields a command whose
tracker holds no references at all, while 42 is among the command's
referenced resources — so dropping the caller's last handle is not
prevented from destroying the backend buffer while the command is in
flight. -/
theorem c1_dispatch_async_tracker_misses_referenced_buffer :
    c1Shader.dispatch_async (ArgEncoder.new.buffer ⟨42, 10, 4⟩) ⟨16, 1, 1⟩
        = Outcome.ok
            { inner := .shaderDispatch 9 [.buffer ⟨42, 0, 40⟩] ⟨16, 1, 1⟩,
              resource_tracker := ResourceTracker.new }
      ∧ ResourceTracker.new.refs = []
      ∧ (42 : Nat) ∈ (ApiCommand.shaderDispatch 9 [.buffer ⟨42, 0, 40⟩]
          ⟨16, 1, 1⟩).referencedResources := by
  exact ⟨rfl, rfl, by decide⟩

/-- C3: when the background compile stored a failure, the first use of
the shader — `unwrap` itself, or `dispatch_async`, `dispatch`,
`cache_dir`, which all resolve through it — panics (process abort), and
the stored failure is never returned to the caller. -/
theorem c3_failed_async_compile_aborts_at_first_use
    (s : RawShader) (e : BackendError) (args : ArgEncoder) (sz : DispatchSize)
    (h : s.artifact = ShaderArtifact.Async (.error e)) :
    s.unwrap = .panicked
      ∧ s.dispatch_async args sz = .panicked
      ∧ s.dispatch args sz = .panicked
      ∧ Kernel.cache_dir ⟨s⟩ = .panicked := by
  have hu : s.unwrap = .panicked := by
    unfold RawShader.unwrap
    rw [h]
  refine ⟨hu, ?_, ?_, ?_⟩
  · unfold RawShader.dispatch_async
    rw [hu]
  · unfold RawShader.dispatch RawShader.dispatch_async
    rw [hu]
  · unfold Kernel.cache_dir
    rw [hu]

/-- Concrete shader fixture whose background compile stored a failure. -/
def c3Shader : RawShader :=
  { device := testDevice, artifact := .Async (.error ⟨"compile failed"⟩),
    resource_tracker := ResourceTracker.new }

/-- C3 witness: the failed-compile fixture satisfies the hypothesis and
every first-use path aborts on it. -/
theorem c3_failed_async_compile_witness :
    c3Shader.artifact = ShaderArtifact.Async (.error ⟨"compile failed"⟩)
      ∧ (c3Shader.unwrap = .panicked
          ∧ c3Shader.dispatch_async ArgEncoder.new ⟨1, 1, 1⟩ = .panicked
          ∧ c3Shader.dispatch ArgEncoder.new ⟨1, 1, 1⟩ = .panicked
          ∧ Kernel.cache_dir ⟨c3Shader⟩ = .panicked) :=
  ⟨rfl,
    c3_failed_async_compile_aborts_at_first_use c3Shader ⟨"compile failed"⟩
      ArgEncoder.new ⟨1, 1, 1⟩ rfl⟩

/-- C4 counterexample: the claim says `create_buffer` over a zero-sized
element type reports the failure as a returned error result; at element
size 0 and count 5 on a concrete device the call returns no error result
— the `assert!` panics. -/
theorem c4_counterexample_zero_sized_create_buffer_panics :
    Outcome.isErrResult (testDevice.create_buffer 0 5).1 = false
      ∧ (testDevice.create_buffer 0 5).1 = .panicked :=
  ⟨rfl, rfl⟩

/-- C4 (amended): for every device and count, `create_buffer` over a
zero-sized element type fails before any backend call is made — the call
trace to the backend is empty — but the failure is an `assert!` panic,
not a returned `ResourceCreationError` the caller can handle. -/
theorem c4_amended_zero_sized_asserts_before_backend
    (d : Device) (count : Nat) :
    d.create_buffer 0 count = (.panicked, []) := by
  simp [Device.create_buffer]

/-- Explicit `synchronize` calls on an already-taken handle issue no
backend wait: the `take` finds the cell empty and the `unwrap` panics
before any backend call. -/
theorem runSyncCalls_none (n : Nat) : runSyncCalls n ⟨none⟩ = (⟨none⟩, []) := by
  induction n with
  | zero => rfl
  | succ n _ => rfl

/-- C5: for every `SyncHandle` obtained from committing a command buffer
and every number `n` of explicit `synchronize` calls over its lifetime,
exactly one backend wait is issued: the handle holds the stream, the
first explicit call takes it and performs the wait, the destructor waits
only when the cell was never taken — never zero waits, never two. -/
theorem c5_sync_handle_exactly_one_wait
    (cb : CommandBuffer) (h : SyncHandle) (n : Nat)
    (hcommit : cb.commit.2 = .ok h) :
    h.stream = some cb.stream
      ∧ lifetimeWaits n h = 1
      ∧ h.synchronize
          = (⟨none⟩, [.synchronizeStream cb.stream.handle],
              .ok (cb.stream.device.backend.synchronize_stream cb.stream.handle))
      ∧ h.dropCalls = [.synchronizeStream cb.stream.handle] := by
  have hs : h = ⟨some cb.stream⟩ := by
    unfold CommandBuffer.commit at hcommit
    cases hd : cb.stream.device.backend.dispatch cb.stream.handle
        (cb.commands.map (·.inner)) with
    | ok u =>
      simp only [hd, Except.ok.injEq] at hcommit
      exact hcommit.symm
    | error e =>
      simp only [hd] at hcommit
      exact absurd hcommit (by simp)
  subst hs
  refine ⟨rfl, ?_, rfl, rfl⟩
  cases n with
  | zero => rfl
  | succ n =>
    simp [lifetimeWaits, runSyncCalls, SyncHandle.synchronize,
      runSyncCalls_none, SyncHandle.dropCalls]

/-- Empty command buffer on `testDevice`'s default stream. -/
def c5Cb : CommandBuffer := (testDevice.default_stream).command_buffer

/-- C5 witness: committing a concrete command buffer yields a handle for
which two explicit `synchronize` calls plus the drop still issue exactly
one backend wait. -/
theorem c5_sync_handle_witness :
    c5Cb.commit.2 = .ok ⟨some c5Cb.stream⟩
      ∧ ((⟨some c5Cb.stream⟩ : SyncHandle).stream = some c5Cb.stream
          ∧ lifetimeWaits 2 ⟨some c5Cb.stream⟩ = 1
          ∧ SyncHandle.synchronize ⟨some c5Cb.stream⟩
              = (⟨none⟩, [.synchronizeStream c5Cb.stream.handle],
                  .ok (c5Cb.stream.device.backend.synchronize_stream
                    c5Cb.stream.handle))
          ∧ SyncHandle.dropCalls ⟨some c5Cb.stream⟩
              = [.synchronizeStream c5Cb.stream.handle]) :=
  ⟨rfl, c5_sync_handle_exactly_one_wait c5Cb ⟨some c5Cb.stream⟩ 2 rfl⟩

/-- C7: `create_kernel` and `create_kernel_async` run the identical
builder pipeline on the same definition (their bodies in `runtime.rs`
coincide token for token), so the kernels they return — and hence the
dispatch results of those kernels on any arguments and grid size — are
identical. -/
theorem c7_sync_async_create_kernel_equivalent
    (build : Device → KernelDef → ShaderBuildOptions → Except BackendError Kernel)
    (d : Device) (f : KernelDef) (args : ArgEncoder) (sz : DispatchSize) :
    Device.create_kernel build d f = Device.create_kernel_async build d f
      ∧ (Device.create_kernel build d f).map
            (fun k => k.inner.dispatch args sz)
        = (Device.create_kernel_async build d f).map
            (fun k => k.inner.dispatch args sz) :=
  ⟨rfl, rfl⟩

/-- Inversion for the artifact step: the only transition goes from the
empty initial state to the terminal stored state. -/
theorem ArtifactStep.inv {r : ShaderResult} {a b : ArtifactState}
    (h : ArtifactStep r a b) :
    a = ⟨none, false⟩ ∧ b = ⟨some r, true⟩ := by
  cases h
  exact ⟨rfl, rfl⟩

/-- Every reachable artifact state is the initial empty slot or the
terminal stored result: the spawned task's store is the only transition. -/
theorem artifact_trace_invariant
    (r : ShaderResult) (t : Nat → ArtifactState)
    (htrace : IsArtifactTrace r t) (i : Nat) :
    t i = ArtifactState.init ∨ t i = ⟨some r, true⟩ := by
  induction i with
  | zero => exact Or.inl htrace.1
  | succ i ih =>
    rcases htrace.2 i with hstep | hstep
    · rw [hstep]; exact ih
    · exact Or.inr (ArtifactStep.inv hstep).2

/-- C8: the async artifact's slot transitions Pending→Ready at most once:
whenever a reader finds the slot holding a result `x`, that result is the
one the background task stored (`x = r`), the state is the terminal
`⟨some r, task done⟩`, and the state never changes afterwards — so every
reader that resolves the artifact observes the same terminal result. -/
theorem c8_async_artifact_single_transition
    (r : ShaderResult) (t : Nat → ArtifactState)
    (htrace : IsArtifactTrace r t) (i k : Nat) (hik : i ≤ k)
    (x : ShaderResult) (hx : (t i).slot = some x) :
    x = r ∧ t i = ⟨some r, true⟩ ∧ t k = t i := by
  have hi : t i = ⟨some r, true⟩ := by
    rcases artifact_trace_invariant r t htrace i with h | h
    · rw [h] at hx; exact absurd hx (by simp [ArtifactState.init])
    · exact h
  have hx' : x = r := by
    have hsome : some r = some x := by rw [hi] at hx; exact hx
    exact (Option.some.inj hsome).symm
  refine ⟨hx', hi, ?_⟩
  induction k with
  | zero =>
    have : i = 0 := Nat.le_zero.mp hik
    rw [this]
  | succ k ihk =>
    rcases Nat.lt_or_ge i (k + 1) with hlt | hge
    · have hk : t k = t i := ihk (Nat.lt_succ_iff.mp hlt)
      rcases htrace.2 k with hstep | hstep
      · rw [hstep, hk]
      · have hsrc := (ArtifactStep.inv hstep).1
        rw [hk, hi] at hsrc
        exact absurd hsrc (by simp)
    · have : i = k + 1 := Nat.le_antisymm hik hge
      rw [this]

/-- The concrete result a background task might store. -/
def c8Result : ShaderResult := .ok ⟨7⟩

/-- A concrete trace: the task stores `c8Result` at instant 1 and the
state stutters ever after. -/
def c8Trace : Nat → ArtifactState := fun i =>
  if i = 0 then ArtifactState.init else ⟨some c8Result, true⟩

/-- C8 witness: the concrete trace is a trace, the slot at instant 1
holds a result, and the theorem pins it to the stored result with the
state constant from then on. -/
theorem c8_async_artifact_witness :
    (IsArtifactTrace c8Result c8Trace ∧ 1 ≤ 5
        ∧ (c8Trace 1).slot = some c8Result)
      ∧ (c8Result = c8Result ∧ c8Trace 1 = ⟨some c8Result, true⟩
          ∧ c8Trace 5 = c8Trace 1) := by
  have htrace : IsArtifactTrace c8Result c8Trace := by
    refine ⟨rfl, fun i => ?_⟩
    cases i with
    | zero => exact Or.inr ArtifactStep.store
    | succ n => exact Or.inl rfl
  exact ⟨⟨htrace, by decide, rfl⟩,
    c8_async_artifact_single_transition c8Result c8Trace htrace 1 5
      (by decide) c8Result rfl⟩

/-- C9: committing a command buffer containing zero commands issues
exactly one backend dispatch call carrying the empty command list and —
when the backend accepts it — returns a `SyncHandle` holding the stream,
whose subsequent synchronize succeeds when the backend's stream wait
does. -/
theorem c9_empty_command_buffer_commit_valid
    (st : Stream)
    (hd : st.handle.device.backend.dispatch st.handle.handle [] = .ok ())
    (hs : st.handle.device.backend.synchronize_stream st.handle.handle
        = .ok ()) :
    (st.command_buffer).commit
        = ([.dispatch st.handle.handle []], .ok ⟨some st.handle⟩)
      ∧ (SyncHandle.synchronize ⟨some st.handle⟩).2.2 = .ok (.ok ()) := by
  constructor
  · unfold CommandBuffer.commit Stream.command_buffer
    simp [hd]
  · unfold SyncHandle.synchronize
    simp [hs]

/-- C9 witness: on `testDevice`'s default stream the empty commit goes
through and its synchronize succeeds. -/
theorem c9_empty_command_buffer_witness :
    ((testDevice.default_stream).handle.device.backend.dispatch
          (testDevice.default_stream).handle.handle [] = .ok ()
        ∧ (testDevice.default_stream).handle.device.backend.synchronize_stream
            (testDevice.default_stream).handle.handle = .ok ())
      ∧ (((testDevice.default_stream).command_buffer).commit
            = ([.dispatch (testDevice.default_stream).handle.handle []],
                .ok ⟨some (testDevice.default_stream).handle⟩)
          ∧ (SyncHandle.synchronize
              ⟨some (testDevice.default_stream).handle⟩).2.2 = .ok (.ok ())) :=
  ⟨⟨rfl, rfl⟩,
    c9_empty_command_buffer_commit_valid (testDevice.default_stream) rfl rfl⟩

end LuisaRuntime
